import Mathlib

/-!
Shallow embedding of the DirectDriveBot marketplace core: the drizzle
schema (passengers, drivers, driverDocuments, orders, driverOffers,
priceNegotiations, ratings) and the tool operations that read and write
it (acceptOffer, makeOffer, respondToCounterOffer, uploadDocument,
processDocumentVerification, rateRide, getUserRating, updateUserRating).

Each table is a list of records; list order models insertion order,
which coincides with the createdAt timestamp order the code relies on.
A `db.select().where(eq(key, v))` followed by `[0]` is modelled by
`List.find?`; a `db.update().where(eq(id, v))` is modelled by mapping a
conditional update over the list; a `db.insert()` appends a record whose
serial id is one past the largest id in the table.  SQL decimal columns
are modelled by `ℚ`; integer star ratings by `Nat`.
-/

namespace DirectDrive

/-- Status of a driver document: pending, approved or rejected. -/
inductive DocStatus
  | pending
  | approved
  | rejected
deriving DecidableEq, Repr

/-- Document categories accepted by the verification ledger. -/
inductive DocType
  | license
  | vehicle_registration
  | insurance
deriving DecidableEq, Repr

/-- Order lifecycle status. -/
inductive OrderStatus
  | pending
  | negotiating
  | accepted
  | in_progress
  | completed
  | cancelled
deriving DecidableEq, Repr

/-- Driver offer status. -/
inductive OfferStatus
  | pending
  | accepted
  | rejected
  | counter_offered
deriving DecidableEq, Repr

/-- Price negotiation status. -/
inductive NegStatus
  | pending
  | accepted
  | rejected
deriving DecidableEq, Repr

/-- Role of a marketplace participant. -/
inductive UserType
  | passenger
  | driver
deriving DecidableEq, Repr

/-- Outcome of a tool call.  The tools return a success flag plus a
message string; the distinct failure messages of the source are
modelled by distinct constructors (`ok` is success, `notFound` the
"not found" messages, `notVerified` the verification policy gate,
`duplicateOffer` the duplicate-offer rejection, `unauthorized` the
"you are not the passenger/driver of this order" rejections,
`alreadyRated` the duplicate-rating rejection, `dbError` the catch
branch entered when the underlying insert violates a constraint). -/
inductive ToolOutcome
  | ok
  | notFound
  | notVerified
  | duplicateOffer
  | unauthorized
  | alreadyRated
  | dbError
deriving DecidableEq, Repr

/-- Row of the `passengers` table. -/
structure Passenger where
  id : Nat
  telegramId : String
  firstName : String
  phoneNumber : String
  rating : ℚ
  totalRides : Nat
deriving DecidableEq, Repr

/-- Row of the `drivers` table. -/
structure Driver where
  id : Nat
  telegramId : String
  firstName : String
  phoneNumber : String
  rating : ℚ
  totalRides : Nat
  isOnline : Bool
  isVerified : Bool
  carModel : Option String
  carColor : Option String
  carNumber : Option String
  licenseStatus : DocStatus
  vehicleStatus : DocStatus
deriving DecidableEq, Repr

/-- Row of the `driver_documents` table; the jsonb payload is opaque to
the state machine and modelled as a string. -/
structure DriverDocument where
  id : Nat
  driverId : Nat
  documentType : DocType
  documentData : String
  status : DocStatus
  rejectionReason : Option String
deriving DecidableEq, Repr

/-- Row of the `orders` table. -/
structure Order where
  id : Nat
  passengerId : Nat
  fromAddress : String
  toAddress : String
  suggestedPrice : ℚ
  finalPrice : Option ℚ
  status : OrderStatus
  acceptedDriverId : Option Nat
deriving DecidableEq, Repr

/-- Row of the `driver_offers` table. -/
structure DriverOffer where
  id : Nat
  orderId : Nat
  driverId : Nat
  offeredPrice : ℚ
  status : OfferStatus
  message : Option String
deriving DecidableEq, Repr

/-- Row of the `price_negotiations` table. -/
structure PriceNegotiation where
  id : Nat
  orderId : Nat
  fromUserId : Nat
  fromUserType : UserType
  toUserId : Nat
  toUserType : UserType
  proposedPrice : ℚ
  status : NegStatus
deriving DecidableEq, Repr

/-- Row of the `ratings` table. -/
structure Rating where
  id : Nat
  orderId : Nat
  fromUserId : Nat
  fromUserType : UserType
  toUserId : Nat
  toUserType : UserType
  rating : Nat
  comment : Option String
deriving DecidableEq, Repr

/-- The whole relational store. -/
structure DBState where
  passengers : List Passenger
  drivers : List Driver
  driverDocuments : List DriverDocument
  orders : List Order
  driverOffers : List DriverOffer
  priceNegotiations : List PriceNegotiation
  ratings : List Rating
deriving DecidableEq, Repr

/-- Next serial id for a table whose current ids are `ids`. -/
def freshId (ids : List Nat) : Nat := ids.foldr max 0 + 1

/-- The `acceptOfferTool` of passengerTools.ts: looks the offer up by
id (left-joined driver data only feeds the reply message), fails when
no such offer exists, and otherwise unconditionally updates the order
row matching the caller-supplied `orderId` (status `accepted`,
`acceptedDriverId` and `finalPrice` stamped from the offer) and sets
that offer's status to `accepted`.  No check relates the offer to the
order and no `status = pending` precondition guards the update. -/
def acceptOffer (offerId orderId : Nat) (s : DBState) : ToolOutcome × DBState :=
  match s.driverOffers.find? (fun o => o.id == offerId) with
  | none => (.notFound, s)
  | some offerData =>
    (.ok, { s with
      orders := s.orders.map fun o =>
        if o.id == orderId then
          { o with status := .accepted
                 , acceptedDriverId := some offerData.driverId
                 , finalPrice := some offerData.offeredPrice }
        else o
      driverOffers := s.driverOffers.map fun o =>
        if o.id == offerId then { o with status := .accepted } else o })

/-- The `makeOfferTool` of driverTools: resolves the driver by telegram
id (NotFound when absent), rejects unverified drivers, rejects a driver
who already has any offer (of any status) on the order, and otherwise
inserts a fresh `pending` offer. -/
def makeOffer (telegramId : String) (orderId : Nat) (offeredPrice : ℚ)
    (message : Option String) (s : DBState) : ToolOutcome × DBState :=
  match s.drivers.find? (fun d => d.telegramId == telegramId) with
  | none => (.notFound, s)
  | some driver =>
    if !driver.isVerified then (.notVerified, s)
    else if 0 < (s.driverOffers.filter
        (fun o => o.orderId == orderId && o.driverId == driver.id)).length then
      (.duplicateOffer, s)
    else
      (.ok, { s with driverOffers := s.driverOffers ++
        [{ id := freshId (s.driverOffers.map (·.id))
         , orderId := orderId
         , driverId := driver.id
         , offeredPrice := offeredPrice
         , status := .pending
         , message := message }] })

/-- JavaScript truthiness of the optional `counterPrice` argument: the
source branches on `else if (counterPrice)`, so an absent value and the
number 0 are both falsy. -/
def priceTruthy : Option ℚ → Bool
  | none => false
  | some p => p != 0

/-- The `respondToCounterOfferTool` of driverTools: resolves the driver
(NotFound when absent).  If `accept` is truthy it marks the matching
negotiation `accepted` (no existence check: a missing id leaves the
table untouched and still reports success).  Otherwise, if
`counterPrice` is truthy, it looks the negotiation up (NotFound when
absent) and appends a new negotiation row on the same order from the
driver back to the original sender at the new price.  Otherwise it
marks the matching negotiation `rejected` (again with no existence
check). -/
def respondToCounterOffer (telegramId : String) (negotiationId : Nat)
    (accept : Bool) (counterPrice : Option ℚ) (s : DBState) :
    ToolOutcome × DBState :=
  match s.drivers.find? (fun d => d.telegramId == telegramId) with
  | none => (.notFound, s)
  | some driver =>
    if accept then
      (.ok, { s with priceNegotiations := s.priceNegotiations.map fun n =>
        if n.id == negotiationId then { n with status := .accepted } else n })
    else if priceTruthy counterPrice then
      match s.priceNegotiations.find? (fun n => n.id == negotiationId) with
      | none => (.notFound, s)
      | some negotiation =>
        (.ok, { s with priceNegotiations := s.priceNegotiations ++
          [{ id := freshId (s.priceNegotiations.map (·.id))
           , orderId := negotiation.orderId
           , fromUserId := driver.id
           , fromUserType := .driver
           , toUserId := negotiation.fromUserId
           , toUserType := .passenger
           , proposedPrice := counterPrice.getD 0
           , status := .pending }] })
    else
      (.ok, { s with priceNegotiations := s.priceNegotiations.map fun n =>
        if n.id == negotiationId then { n with status := .rejected } else n })

/-- The `makeCounterOfferTool` of passengerTools.ts: resolves the
passenger (NotFound when absent) and inserts a pending negotiation row
addressed to the given driver. -/
def makeCounterOffer (orderId : Nat) (telegramId : String) (driverId : Nat)
    (counterPrice : ℚ) (s : DBState) : ToolOutcome × DBState :=
  match s.passengers.find? (fun p => p.telegramId == telegramId) with
  | none => (.notFound, s)
  | some passenger =>
    (.ok, { s with priceNegotiations := s.priceNegotiations ++
      [{ id := freshId (s.priceNegotiations.map (·.id))
       , orderId := orderId
       , fromUserId := passenger.id
       , fromUserType := .passenger
       , toUserId := driverId
       , toUserType := .driver
       , proposedPrice := counterPrice
       , status := .pending }] })

/-- The `uploadDocumentTool` of verification tools: resolves the driver
by telegram id (NotFound when absent); when a document of the same
category already exists for the driver, updates that row in place (new
payload, status reset to `pending`, rejection reason cleared);
otherwise inserts a new pending document. -/
def uploadDocument (telegramId : String) (documentType : DocType)
    (documentData : String) (s : DBState) : ToolOutcome × DBState :=
  match s.drivers.find? (fun d => d.telegramId == telegramId) with
  | none => (.notFound, s)
  | some driver =>
    match s.driverDocuments.find?
        (fun d => d.driverId == driver.id && d.documentType == documentType) with
    | some existingDoc =>
      (.ok, { s with driverDocuments := s.driverDocuments.map fun d =>
        if d.id == existingDoc.id then
          { d with documentData := documentData
                 , status := .pending
                 , rejectionReason := none }
        else d })
    | none =>
      (.ok, { s with driverDocuments := s.driverDocuments ++
        [{ id := freshId (s.driverDocuments.map (·.id))
         , driverId := driver.id
         , documentType := documentType
         , documentData := documentData
         , status := .pending
         , rejectionReason := none }] })

/-- Required document categories for verification, as listed in both
`checkVerificationStatusTool` and `checkAndUpdateDriverVerification`. -/
def requiredDocs : List DocType := [.license, .vehicle_registration]

/-- The aggregate check of `checkAndUpdateDriverVerification`: every
required category has an approved document among `documents`. -/
def hasAllRequiredApproved (documents : List DriverDocument) : Bool :=
  requiredDocs.all fun t =>
    (documents.filter (fun d => d.status == .approved)).any
      (fun d => d.documentType == t)

/-- The helper `checkAndUpdateDriverVerification`: recomputes the
aggregate flag over all of the driver's documents and writes
`isVerified` (and the two legacy per-category columns) back to the
driver row. -/
def checkAndUpdateDriverVerification (driverId : Nat) (s : DBState) : DBState :=
  let documents := s.driverDocuments.filter (fun d => d.driverId == driverId)
  let ok := hasAllRequiredApproved documents
  { s with drivers := s.drivers.map fun d =>
      if d.id == driverId then
        { d with isVerified := ok
               , licenseStatus := if ok then .approved else .pending
               , vehicleStatus := if ok then .approved else .pending }
      else d }

/-- The `processDocumentVerificationTool`: sets the document's status
to approved/rejected (clearing the reason on approval), re-reads the
document, and when it exists recomputes the owning driver's aggregate
verification.  The tool reports success even for an unknown document
id (the update then matches no row). -/
def processDocumentVerification (documentId : Nat) (approve : Bool)
    (rejectionReason : Option String) (s : DBState) : ToolOutcome × DBState :=
  let newStatus : DocStatus := if approve then .approved else .rejected
  let docs1 := s.driverDocuments.map fun d =>
    if d.id == documentId then
      { d with status := newStatus
             , rejectionReason := if approve then none else rejectionReason }
    else d
  let s1 := { s with driverDocuments := docs1 }
  match docs1.find? (fun d => d.id == documentId) with
  | some doc => (.ok, checkAndUpdateDriverVerification doc.driverId s1)
  | none => (.ok, s1)

/-- Rounding to the nearest integer with half-way values rounded up,
the behaviour of JavaScript's `toFixed` on the positive values this
system produces. -/
def jsRound (q : ℚ) : ℤ := ⌊q + 1/2⌋

/-- Two-decimal rounding used when the recomputed average is written
back to a profile, modelling JavaScript's `Number.prototype.toFixed(2)`
on the exact rational average. -/
def toFixed2 (q : ℚ) : ℚ := (jsRound (100 * q) : ℚ) / 100

/-- Ratings received by user `userId` in role `userType`, in insertion
(and hence createdAt) order. -/
def receivedRatings (userId : Nat) (userType : UserType) (s : DBState) :
    List Rating :=
  s.ratings.filter (fun r => r.toUserId == userId && r.toUserType == userType)

/-- The helper `updateUserRating`: when the target has at least one
rating, recomputes the arithmetic mean of all ratings ever received by
the target in that role, rounds it to two decimals, and writes it plus
the rating count back to the target's profile row; with zero ratings it
returns without writing. -/
def updateUserRating (userId : Nat) (userType : UserType) (s : DBState) :
    DBState :=
  let userRatings := receivedRatings userId userType s
  if userRatings.length == 0 then s
  else
    let avgRating : ℚ :=
      ((userRatings.map (·.rating)).sum : ℚ) / (userRatings.length : ℚ)
    let totalRides := userRatings.length
    match userType with
    | .driver =>
      { s with drivers := s.drivers.map fun d =>
          if d.id == userId then
            { d with rating := toFixed2 avgRating, totalRides := totalRides }
          else d }
    | .passenger =>
      { s with passengers := s.passengers.map fun p =>
          if p.id == userId then
            { p with rating := toFixed2 avgRating, totalRides := totalRides }
          else p }

/-- Report produced by `getUserRatingTool` (success flag, two-decimal
average, total rating count, recent comments most recent first). -/
structure RatingReport where
  success : Bool
  rating : Option ℚ
  totalRatings : Option Nat
  recentComments : Option (List String)
deriving DecidableEq, Repr

/-- The `getUserRatingTool`: with zero ratings for the target it
succeeds with the default 5.00 average, count 0 and no comments;
otherwise it reports the recomputed two-decimal average, the total
count, and the last five comments reversed (most recent first). -/
def getUserRating (userId : Nat) (userType : UserType) (s : DBState) :
    RatingReport :=
  let userRatings := receivedRatings userId userType s
  if userRatings.length == 0 then
    { success := true, rating := some 5, totalRatings := some 0
    , recentComments := some [] }
  else
    let avgRating : ℚ :=
      ((userRatings.map (·.rating)).sum : ℚ) / (userRatings.length : ℚ)
    let recentComments := (userRatings.filterMap (·.comment)).reverse.take 5
    { success := true, rating := some (toFixed2 avgRating)
    , totalRatings := some userRatings.length
    , recentComments := some recentComments }

/-- The `rateRideTool`: resolves the order (NotFound when absent);
checks the caller really is the party of the order for the given role
(the order's passenger, resp. its accepted driver) and fails
`unauthorized` otherwise; fails `alreadyRated` when a rating from this
(order, fromUser) pair exists; otherwise inserts the rating directed at
the counterpart and synchronously recomputes the counterpart's profile
aggregate.  In the passenger role the rating's target is
`orderData.acceptedDriverId!`: when the order has no accepted driver
the insert violates the NOT NULL constraint on `to_user_id`, the
exception lands in the tool's catch branch, and nothing is written —
modelled by the `dbError` outcome. -/
def rateRide (telegramId : String) (orderId : Nat) (userType : UserType)
    (score : Nat) (comment : Option String) (s : DBState) :
    ToolOutcome × DBState :=
  match s.orders.find? (fun o => o.id == orderId) with
  | none => (.notFound, s)
  | some orderData =>
    let party : Option (Nat × Option Nat) :=
      match userType with
      | .passenger =>
        match s.passengers.find? (fun p => p.telegramId == telegramId) with
        | none => none
        | some passenger =>
          if passenger.id == orderData.passengerId then
            some (passenger.id, orderData.acceptedDriverId)
          else none
      | .driver =>
        match s.drivers.find? (fun d => d.telegramId == telegramId) with
        | none => none
        | some driver =>
          if some driver.id == orderData.acceptedDriverId then
            some (driver.id, some orderData.passengerId)
          else none
    match party with
    | none => (.unauthorized, s)
    | some (fromUserId, toUserIdOpt) =>
      if 0 < (s.ratings.filter
          (fun r => r.orderId == orderId && r.fromUserId == fromUserId)).length then
        (.alreadyRated, s)
      else
        match toUserIdOpt with
        | none => (.dbError, s)
        | some toUserId =>
          let toType : UserType :=
            match userType with
            | .passenger => .driver
            | .driver => .passenger
          let s1 := { s with ratings := s.ratings ++
            [{ id := freshId (s.ratings.map (·.id))
             , orderId := orderId
             , fromUserId := fromUserId
             , fromUserType := userType
             , toUserId := toUserId
             , toUserType := toType
             , rating := score
             , comment := comment.bind
                 (fun c => if c == "" then none else some c) }] }
          (.ok, updateUserRating toUserId toType s1)

/-! Generic list lemmas used throughout the development. -/

/-- A filtered list has positive length exactly when some element of the
original list satisfies the predicate. -/
theorem filter_length_pos_iff {α : Type} (q : α → Bool) (l : List α) :
    0 < (l.filter q).length ↔ ∃ a ∈ l, q a = true := by
  rw [List.length_pos]
  constructor
  · intro h
    obtain ⟨a, ha⟩ := List.exists_mem_of_ne_nil _ h
    rw [List.mem_filter] at ha
    exact ⟨a, ha.1, ha.2⟩
  · rintro ⟨a, hal, hq⟩
    exact List.ne_nil_of_mem (List.mem_filter.mpr ⟨hal, hq⟩)

/-- Mapping a conditional row update over a list in which no row matches
the condition leaves the list unchanged. -/
theorem map_update_id {α : Type} (p : α → Bool) (f : α → α) (l : List α)
    (h : ∀ a ∈ l, p a = false) :
    (l.map fun a => if p a then f a else a) = l := by
  induction l with
  | nil => rfl
  | cons x xs ih =>
    have hx := h x (List.mem_cons_self x xs)
    have ihh := ih fun a ha => h a (List.mem_cons_of_mem x ha)
    simp [hx, ihh]

/-! Concrete record builders for the witness scenarios. -/

/-- A passenger profile with the registration defaults. -/
def mkPassenger (i : Nat) (tid : String) : Passenger :=
  { id := i, telegramId := tid, firstName := "P", phoneNumber := "7900"
  , rating := 5, totalRides := 0 }

/-- A driver profile with the registration defaults and the given
verification flag. -/
def mkDriver (i : Nat) (tid : String) (ver : Bool) : Driver :=
  { id := i, telegramId := tid, firstName := "D", phoneNumber := "7901"
  , rating := 5, totalRides := 0, isOnline := true, isVerified := ver
  , carModel := some "Car", carColor := some "red", carNumber := some "X1"
  , licenseStatus := .pending, vehicleStatus := .pending }

/-- A freshly created pending order. -/
def mkOrder (i pid : Nat) (price : ℚ) : Order :=
  { id := i, passengerId := pid, fromAddress := "A", toAddress := "B"
  , suggestedPrice := price, finalPrice := none, status := .pending
  , acceptedDriverId := none }

/-- A freshly created pending offer. -/
def mkOffer (i oid did : Nat) (price : ℚ) : DriverOffer :=
  { id := i, orderId := oid, driverId := did, offeredPrice := price
  , status := .pending, message := none }

/-- The empty store. -/
def emptyDB : DBState :=
  { passengers := [], drivers := [], driverDocuments := [], orders := []
  , driverOffers := [], priceNegotiations := [], ratings := [] }

/-- Pending order 1 with two competing pending offers: offer 10 from
driver 1 at 600 and offer 11 from driver 2 at 550. -/
def raceState : DBState :=
  { emptyDB with
    passengers := [mkPassenger 1 "p1"]
    drivers := [mkDriver 1 "d1" true, mkDriver 2 "d2" true]
    orders := [mkOrder 1 1 500]
    driverOffers := [mkOffer 10 1 1 600, mkOffer 11 1 2 550] }

/-- C1: the claim says `acceptOffer` transitions an order to `accepted`
only while its status is still `pending`, and that a second
`acceptOffer` on a different offer of the same order fails with a "no
longer available" condition so the order keeps exactly one winner.  The
source has no such guard: the order update is unconditional, so on a
pending order with offers 10 (driver 1) and 11 (driver 2) both calls
report success and the second silently overwrites `acceptedDriverId`
from driver 1 to driver 2 — the double-booking the spec explicitly
forbids. -/
theorem acceptOffer_double_booking :
    (acceptOffer 10 1 raceState).1 = .ok ∧
    ((acceptOffer 10 1 raceState).2.orders.find? (fun o => o.id == 1)).map
      (fun o => (o.status, o.acceptedDriverId)) =
      some (.accepted, some 1) ∧
    (acceptOffer 11 1 (acceptOffer 10 1 raceState).2).1 = .ok ∧
    ((acceptOffer 11 1 (acceptOffer 10 1 raceState).2).2.orders.find?
        (fun o => o.id == 1)).map
      (fun o => (o.status, o.acceptedDriverId, o.finalPrice)) =
      some (.accepted, some 2, some 550) := by
  decide

/-- C3: when the offer exists, `acceptOffer` reports success and the
new state is exactly the old one with the order rows matching the given
`orderId` stamped (status `accepted`, `acceptedDriverId` and
`finalPrice` taken from the offer) and the offer rows matching
`offerId` set to `accepted`; every sibling offer (different id) is
carried over unchanged, so pending siblings stay pending.  When no
offer has the given id the call fails `notFound` and the state is
returned untouched. -/
theorem acceptOffer_stamps_order_and_offer (s : DBState) (offerId orderId : Nat) :
    (s.driverOffers.find? (fun o => o.id == offerId) = none →
       acceptOffer offerId orderId s = (.notFound, s)) ∧
    ∀ off, s.driverOffers.find? (fun o => o.id == offerId) = some off →
      (acceptOffer offerId orderId s).1 = .ok ∧
      (acceptOffer offerId orderId s).2 =
        { s with
          orders := s.orders.map fun o =>
            if o.id == orderId then
              { o with status := .accepted
                     , acceptedDriverId := some off.driverId
                     , finalPrice := some off.offeredPrice }
            else o
          driverOffers := s.driverOffers.map fun o =>
            if o.id == offerId then { o with status := .accepted } else o } ∧
      ∀ o ∈ s.driverOffers, o.id ≠ offerId →
        o ∈ (acceptOffer offerId orderId s).2.driverOffers := by
  constructor
  · intro h
    simp [acceptOffer, h]
  · intro off hoff
    refine ⟨by simp [acceptOffer, hoff], by simp [acceptOffer, hoff], ?_⟩
    intro o ho hne
    simp only [acceptOffer, hoff]
    exact List.mem_map.mpr ⟨o, ho, by simp [hne]⟩

/-- Witness scenario for C3: accepting offer 11 of `raceState`. -/
theorem acceptOffer_stamps_order_and_offer_witness :
    (acceptOffer 11 1 raceState).1 = .ok ∧
    (acceptOffer 11 1 raceState).2 =
      { raceState with
        orders := raceState.orders.map fun o =>
          if o.id == 1 then
            { o with status := .accepted
                   , acceptedDriverId := some (mkOffer 11 1 2 550).driverId
                   , finalPrice := some (mkOffer 11 1 2 550).offeredPrice }
          else o
        driverOffers := raceState.driverOffers.map fun o =>
          if o.id == 11 then { o with status := .accepted } else o } := by
  have h := (acceptOffer_stamps_order_and_offer raceState 11 1).2
    (mkOffer 11 1 2 550) (by decide)
  exact ⟨h.1, h.2.1⟩

/-- C10: `acceptOffer` never checks that the offer belongs to the
caller-supplied order.  Whenever the offer exists but names a different
order, the call still succeeds, every order row matching the unrelated
`orderId` is stamped with the offer's driver and price, and the offer
itself is marked accepted. -/
theorem acceptOffer_ignores_order_mismatch (s : DBState)
    (offerId orderId : Nat) (off : DriverOffer)
    (hfind : s.driverOffers.find? (fun o => o.id == offerId) = some off)
    (hmismatch : off.orderId ≠ orderId) :
    (acceptOffer offerId orderId s).1 = .ok ∧
    (∀ o ∈ s.orders, o.id = orderId →
      { o with status := .accepted
             , acceptedDriverId := some off.driverId
             , finalPrice := some off.offeredPrice }
        ∈ (acceptOffer offerId orderId s).2.orders) ∧
    ∀ o ∈ s.driverOffers, o.id = offerId →
      { o with status := OfferStatus.accepted }
        ∈ (acceptOffer offerId orderId s).2.driverOffers := by
  refine ⟨by simp [acceptOffer, hfind], ?_, ?_⟩
  · intro o ho hid
    simp only [acceptOffer, hfind]
    exact List.mem_map.mpr ⟨o, ho, by simp [hid]⟩
  · intro o ho hid
    simp only [acceptOffer, hfind]
    exact List.mem_map.mpr ⟨o, ho, by simp [hid]⟩

/-- Store with order 2 unrelated to offer 5, which belongs to order 1. -/
def mismatchState : DBState :=
  { emptyDB with
    passengers := [mkPassenger 1 "p1", mkPassenger 2 "p2"]
    drivers := [mkDriver 1 "d1" true]
    orders := [mkOrder 1 1 500, mkOrder 2 2 300]
    driverOffers := [mkOffer 5 1 1 450] }

/-- Witness scenario for C10: offer 5 belongs to order 1, yet
`acceptOffer 5 2` stamps order 2. -/
theorem acceptOffer_ignores_order_mismatch_witness :
    (acceptOffer 5 2 mismatchState).1 = .ok ∧
    { mkOrder 2 2 300 with
        status := OrderStatus.accepted
      , acceptedDriverId := some 1
      , finalPrice := some 450 } ∈ (acceptOffer 5 2 mismatchState).2.orders := by
  have h := acceptOffer_ignores_order_mismatch mismatchState 5 2
    (mkOffer 5 1 1 450) (by decide) (by decide)
  exact ⟨h.1, h.2.1 (mkOrder 2 2 300) (by decide) rfl⟩

/-- C4: `makeOffer` fails `notFound` for an unregistered handle, fails
`notVerified` for a registered but unverified driver, fails
`duplicateOffer` whenever the driver already has any offer (of any
status) on the order, leaves the store untouched in every failure case,
and only for a registered, verified driver with no prior offer on the
order appends exactly one new pending offer row. -/
theorem makeOffer_policy_duplicate_insert (s : DBState) (tid : String)
    (orderId : Nat) (price : ℚ) (msg : Option String) :
    (s.drivers.find? (fun d => d.telegramId == tid) = none →
       makeOffer tid orderId price msg s = (.notFound, s)) ∧
    ∀ drv, s.drivers.find? (fun d => d.telegramId == tid) = some drv →
      (drv.isVerified = false →
         makeOffer tid orderId price msg s = (.notVerified, s)) ∧
      (drv.isVerified = true →
        ((∃ o ∈ s.driverOffers, o.orderId = orderId ∧ o.driverId = drv.id) →
           makeOffer tid orderId price msg s = (.duplicateOffer, s)) ∧
        ((¬ ∃ o ∈ s.driverOffers, o.orderId = orderId ∧ o.driverId = drv.id) →
           makeOffer tid orderId price msg s =
             (.ok, { s with driverOffers := s.driverOffers ++
               [{ id := freshId (s.driverOffers.map (·.id))
                , orderId := orderId
                , driverId := drv.id
                , offeredPrice := price
                , status := .pending
                , message := msg }] }))) := by
  constructor
  · intro h
    simp [makeOffer, h]
  · intro drv hfind
    have hiff : 0 < (s.driverOffers.filter
        (fun o => o.orderId == orderId && o.driverId == drv.id)).length ↔
        ∃ o ∈ s.driverOffers, o.orderId = orderId ∧ o.driverId = drv.id := by
      rw [filter_length_pos_iff]
      simp
    constructor
    · intro hv
      simp [makeOffer, hfind, hv]
    · intro hv
      constructor
      · intro hex
        have hpos := hiff.mpr hex
        simp [makeOffer, hfind, hv, hpos]
      · intro hnex
        have hnpos : ¬ 0 < (s.driverOffers.filter
            (fun o => o.orderId == orderId && o.driverId == drv.id)).length :=
          fun h => hnex (hiff.mp h)
        simp [makeOffer, hfind, hv, hnpos]

/-- Store with one verified driver, one unverified driver and one
pending order and no offers yet. -/
def offerState : DBState :=
  { emptyDB with
    passengers := [mkPassenger 1 "p1"]
    drivers := [mkDriver 1 "dv" true, mkDriver 2 "du" false]
    orders := [mkOrder 1 1 500] }

/-- Witness scenario for C4: the verified driver with no prior offer
gets exactly one new pending offer row appended. -/
theorem makeOffer_policy_duplicate_insert_witness :
    makeOffer "dv" 1 550 none offerState =
      (.ok, { offerState with driverOffers := offerState.driverOffers ++
        [{ id := freshId (offerState.driverOffers.map (·.id))
         , orderId := 1
         , driverId := (mkDriver 1 "dv" true).id
         , offeredPrice := 550
         , status := .pending
         , message := none }] }) :=
  ((((makeOffer_policy_duplicate_insert offerState "dv" 1 550 none).2
      (mkDriver 1 "dv" true) (by decide)).2 (by decide)).2 (by decide))

/-- C8: `uploadDocument` fails `notFound` for an unregistered handle
and leaves the store untouched; when a document of the same category
already exists for the driver it updates that same row in place (new
payload, status reset to pending, rejection reason cleared) without
changing the number of document rows; only when no such document exists
does it append a single new pending document. -/
theorem uploadDocument_upsert (s : DBState) (tid : String) (dt : DocType)
    (payload : String) :
    (s.drivers.find? (fun d => d.telegramId == tid) = none →
       uploadDocument tid dt payload s = (.notFound, s)) ∧
    ∀ drv, s.drivers.find? (fun d => d.telegramId == tid) = some drv →
      (∀ ex, s.driverDocuments.find?
            (fun d => d.driverId == drv.id && d.documentType == dt) = some ex →
         uploadDocument tid dt payload s =
           (.ok, { s with driverDocuments := s.driverDocuments.map fun d =>
              if d.id == ex.id then
                { d with documentData := payload
                       , status := .pending
                       , rejectionReason := none }
              else d }) ∧
         (uploadDocument tid dt payload s).2.driverDocuments.length =
           s.driverDocuments.length) ∧
      (s.driverDocuments.find?
          (fun d => d.driverId == drv.id && d.documentType == dt) = none →
         uploadDocument tid dt payload s =
           (.ok, { s with driverDocuments := s.driverDocuments ++
             [{ id := freshId (s.driverDocuments.map (·.id))
              , driverId := drv.id
              , documentType := dt
              , documentData := payload
              , status := .pending
              , rejectionReason := none }] })) := by
  constructor
  · intro h
    simp [uploadDocument, h]
  · intro drv hdrv
    constructor
    · intro ex hex
      refine ⟨by simp [uploadDocument, hdrv, hex], ?_⟩
      simp [uploadDocument, hdrv, hex]
    · intro hnone
      simp [uploadDocument, hdrv, hnone]

/-- Store with a registered driver who has a rejected license document
on file. -/
def resubmitState : DBState :=
  { emptyDB with
    drivers := [mkDriver 1 "d1" false]
    driverDocuments := [{ id := 3, driverId := 1, documentType := .license
                        , documentData := "old", status := .rejected
                        , rejectionReason := some "blurry" }] }

/-- Witness scenario for C8: resubmitting the license replaces the
rejected row in place, resets it to pending and clears the reason. -/
theorem uploadDocument_upsert_witness :
    uploadDocument "d1" .license "new" resubmitState =
      (.ok, { resubmitState with
        driverDocuments := resubmitState.driverDocuments.map fun d =>
          if d.id == 3 then
            { d with documentData := "new"
                   , status := .pending
                   , rejectionReason := none }
          else d }) ∧
    (uploadDocument "d1" .license "new" resubmitState).2.driverDocuments.length =
      resubmitState.driverDocuments.length :=
  ((uploadDocument_upsert resubmitState "d1" .license "new").2
      (mkDriver 1 "d1" false) (by decide)).1
    { id := 3, driverId := 1, documentType := .license, documentData := "old"
    , status := .rejected, rejectionReason := some "blurry" } (by decide)

/-- The aggregate verification check over a driver's documents holds
exactly when every required category (license and vehicle
registration; insurance plays no part) has an approved document of that
driver. -/
theorem hasAllRequiredApproved_iff (docs : List DriverDocument) (did : Nat) :
    hasAllRequiredApproved (docs.filter (fun d => d.driverId == did)) = true ↔
      ∀ t ∈ requiredDocs, ∃ d ∈ docs,
        d.driverId = did ∧ d.documentType = t ∧ d.status = .approved := by
  unfold hasAllRequiredApproved
  simp only [List.all_eq_true, List.any_eq_true, List.mem_filter, beq_iff_eq]
  constructor
  · intro h t ht
    obtain ⟨d, ⟨⟨hdmem, hdrv⟩, happ⟩, hdt⟩ := h t ht
    exact ⟨d, hdmem, hdrv, hdt, happ⟩
  · intro h t ht
    obtain ⟨d, hdmem, hdrv, hdt, happ⟩ := h t ht
    exact ⟨d, ⟨⟨hdmem, hdrv⟩, happ⟩, hdt⟩

/-- Recomputing a driver's verification never touches the document
table. -/
theorem checkAndUpdate_docs_eq (i : Nat) (s : DBState) :
    (checkAndUpdateDriverVerification i s).driverDocuments =
      s.driverDocuments := rfl

/-- After `checkAndUpdateDriverVerification`, every driver row with the
recomputed id stores `isVerified = true` exactly when every required
category has an approved document of that driver. -/
theorem checkAndUpdate_verified_iff (driverId : Nat) (s : DBState) :
    ∀ drv ∈ (checkAndUpdateDriverVerification driverId s).drivers,
      drv.id = driverId →
        (drv.isVerified = true ↔
          ∀ t ∈ requiredDocs, ∃ d ∈ s.driverDocuments,
            d.driverId = driverId ∧ d.documentType = t ∧
              d.status = .approved) := by
  intro drv hmem hid
  unfold checkAndUpdateDriverVerification at hmem
  simp only [List.mem_map] at hmem
  obtain ⟨x, hx, hfx⟩ := hmem
  by_cases hxid : (x.id == driverId) = true
  · rw [if_pos hxid] at hfx
    rw [← hfx]
    simpa using hasAllRequiredApproved_iff s.driverDocuments driverId
  · rw [if_neg hxid] at hfx
    rw [← hfx] at hid
    exact absurd (by simpa using hid) hxid

/-- C2: after an `adjudicateDocument` call that found its document, the
owning driver's stored `isVerified` flag is true exactly when every
required category (license and vehicle registration; insurance
excluded) has an approved document of that driver in the resulting
store.  Because this recomputation runs on every adjudication it also
flips the flag from true to false when a previously approved required
document is re-adjudicated as rejected. -/
theorem adjudication_recomputes_verified (s : DBState) (documentId : Nat)
    (approve : Bool) (reason : Option String) (doc : DriverDocument)
    (hdoc : (processDocumentVerification documentId approve reason
        s).2.driverDocuments.find? (fun d => d.id == documentId) = some doc) :
    ∀ drv ∈ (processDocumentVerification documentId approve reason s).2.drivers,
      drv.id = doc.driverId →
        (drv.isVerified = true ↔
          ∀ t ∈ requiredDocs,
            ∃ d ∈ (processDocumentVerification documentId approve reason
                s).2.driverDocuments,
              d.driverId = doc.driverId ∧ d.documentType = t ∧
                d.status = .approved) := by
  intro drv hmem hid
  simp only [processDocumentVerification] at hdoc hmem ⊢
  split at hdoc
  next doc' hfind =>
    rw [checkAndUpdate_docs_eq] at hdoc
    simp only at hdoc
    rw [hfind] at hdoc
    injection hdoc with hdoc
    subst hdoc
    simp only [hfind] at hmem ⊢
    rw [checkAndUpdate_docs_eq]
    exact checkAndUpdate_verified_iff doc'.driverId _ drv hmem hid
  next hfind =>
    simp only at hdoc
    rw [hfind] at hdoc
    exact absurd hdoc (by simp)

/-- Store with a verified driver whose two required documents are both
approved, about to have the license re-adjudicated. -/
def verState : DBState :=
  { emptyDB with
    drivers := [{ mkDriver 1 "d1" true with
                    licenseStatus := .approved, vehicleStatus := .approved }]
    driverDocuments :=
      [ { id := 1, driverId := 1, documentType := .license
        , documentData := "L", status := .approved, rejectionReason := none }
      , { id := 2, driverId := 1, documentType := .vehicle_registration
        , documentData := "V", status := .approved
        , rejectionReason := none } ] }

/-- The license document of `verState` after being re-adjudicated as
rejected. -/
def verDocRejected : DriverDocument :=
  { id := 1, driverId := 1, documentType := .license, documentData := "L"
  , status := .rejected, rejectionReason := some "blurry" }

/-- The driver row of `verState` after the rejection flips the flag
back to false. -/
def verDriverAfter : Driver :=
  { mkDriver 1 "d1" true with
      isVerified := false, licenseStatus := .pending
    , vehicleStatus := .pending }

/-- Witness scenario for C2: rejecting the previously approved license
re-runs the recomputation, and the stored flag (now false) again equals
the required-categories-all-approved predicate, which now fails. -/
theorem adjudication_recomputes_verified_witness :
    (verDriverAfter.isVerified = true ↔
      ∀ t ∈ requiredDocs,
        ∃ d ∈ (processDocumentVerification 1 false (some "blurry")
            verState).2.driverDocuments,
          d.driverId = verDocRejected.driverId ∧ d.documentType = t ∧
            d.status = .approved) :=
  adjudication_recomputes_verified verState 1 false (some "blurry")
    verDocRejected (by decide) verDriverAfter (by decide) (by decide)

/-- C7 (amended): for an existing negotiation record and a registered
responding driver, `respondToCounterOffer` with `accept = false` and a
nonzero `counterPrice` appends exactly one new negotiation row on the
same order, directed from the driver back to the original sender at
the new price, and every existing negotiation row — the original one
included — is carried over with its status untouched.  (The amendment
to nonzero prices is forced by JavaScript truthiness: a supplied
`counterPrice` of 0 falls through to the reject branch.) -/
theorem counterResponse_appends_negotiation (s : DBState) (tid : String)
    (nid : Nat) (p : ℚ) (drv : Driver) (neg : PriceNegotiation)
    (hdrv : s.drivers.find? (fun d => d.telegramId == tid) = some drv)
    (hneg : s.priceNegotiations.find? (fun n => n.id == nid) = some neg)
    (hp : p ≠ 0) :
    respondToCounterOffer tid nid false (some p) s =
      (.ok, { s with priceNegotiations := s.priceNegotiations ++
        [{ id := freshId (s.priceNegotiations.map (·.id))
         , orderId := neg.orderId
         , fromUserId := drv.id
         , fromUserType := .driver
         , toUserId := neg.fromUserId
         , toUserType := .passenger
         , proposedPrice := p
         , status := .pending }] }) ∧
    ∀ n ∈ s.priceNegotiations,
      n ∈ (respondToCounterOffer tid nid false (some p) s).2.priceNegotiations := by
  have ht : priceTruthy (some p) = true := by
    simp [priceTruthy, bne_iff_ne, hp]
  constructor
  · simp [respondToCounterOffer, hdrv, ht, hneg]
  · intro n hn
    simp [respondToCounterOffer, hdrv, ht, hneg]
    exact Or.inl hn

/-- A pending passenger-to-driver negotiation row. -/
def mkNeg (i oid pid did : Nat) (price : ℚ) : PriceNegotiation :=
  { id := i, orderId := oid, fromUserId := pid, fromUserType := .passenger
  , toUserId := did, toUserType := .driver, proposedPrice := price
  , status := .pending }

/-- Store with one pending passenger counter-offer at 450 on order 1,
awaiting driver 1's response. -/
def negState : DBState :=
  { emptyDB with
    passengers := [mkPassenger 1 "p1"]
    drivers := [mkDriver 1 "d1" true]
    orders := [mkOrder 1 1 500]
    priceNegotiations := [mkNeg 1 1 1 1 450] }

/-- Witness scenario for C7: driver 1 counter-responds with 470; a new
driver-to-passenger row at 470 appears and the original row stays
pending. -/
theorem counterResponse_appends_negotiation_witness :
    respondToCounterOffer "d1" 1 false (some 470) negState =
      (.ok, { negState with priceNegotiations := negState.priceNegotiations ++
        [{ id := freshId (negState.priceNegotiations.map (·.id))
         , orderId := (mkNeg 1 1 1 1 450).orderId
         , fromUserId := (mkDriver 1 "d1" true).id
         , fromUserType := .driver
         , toUserId := (mkNeg 1 1 1 1 450).fromUserId
         , toUserType := .passenger
         , proposedPrice := 470
         , status := .pending }] }) :=
  (counterResponse_appends_negotiation negState "d1" 1 470
      (mkDriver 1 "d1" true) (mkNeg 1 1 1 1 450)
      (by decide) (by decide) (by decide)).1

/-- C7 counterexample: with `counterPrice = 0` supplied, the source's
`else if (counterPrice)` treats the argument as absent, so no new row
is inserted and the original negotiation row is mutated to `rejected`
— contradicting the claim that any supplied counter price appends a
reverse-direction row and leaves the original status unchanged. -/
theorem counterResponse_zero_price_counterexample :
    (respondToCounterOffer "d1" 1 false (some 0) negState).1 = .ok ∧
    (respondToCounterOffer "d1" 1 false (some 0) negState).2.priceNegotiations =
      [{ mkNeg 1 1 1 1 450 with status := NegStatus.rejected }] := by
  decide

/-- C9 (amended): `respondToCounterOffer` fails `notFound` with the
store untouched whenever the responding driver is unregistered (in all
three branches), and whenever the negotiation record is missing in the
counter-price branch; in the accept and reject branches a missing
negotiation is not detected — the update matches no row, the store is
returned unchanged, and the call still reports success. -/
theorem respond_notfound_cases (s : DBState) (tid : String) (nid : Nat)
    (accept : Bool) (cp : Option ℚ) :
    (s.drivers.find? (fun d => d.telegramId == tid) = none →
       respondToCounterOffer tid nid accept cp s = (.notFound, s)) ∧
    ∀ drv, s.drivers.find? (fun d => d.telegramId == tid) = some drv →
      s.priceNegotiations.find? (fun n => n.id == nid) = none →
        (accept = false → priceTruthy cp = true →
           respondToCounterOffer tid nid accept cp s = (.notFound, s)) ∧
        (accept = true →
           respondToCounterOffer tid nid accept cp s = (.ok, s)) ∧
        (accept = false → priceTruthy cp = false →
           respondToCounterOffer tid nid accept cp s = (.ok, s)) := by
  constructor
  · intro h
    simp [respondToCounterOffer, h]
  · intro drv hdrv hnone
    have hall : ∀ n ∈ s.priceNegotiations, (n.id == nid) = false := by
      intro n hn
      have := List.find?_eq_none.mp hnone n hn
      simpa using this
    refine ⟨?_, ?_, ?_⟩
    · intro ha htr
      simp [respondToCounterOffer, hdrv, ha, htr, hnone]
    · intro ha
      simp only [respondToCounterOffer, hdrv, ha, if_true]
      rw [map_update_id (fun n => n.id == nid)
        (fun n => { n with status := NegStatus.accepted })
        s.priceNegotiations hall]
    · intro ha htr
      simp only [respondToCounterOffer, hdrv, ha, htr, if_false,
        Bool.false_eq_true]
      rw [map_update_id (fun n => n.id == nid)
        (fun n => { n with status := NegStatus.rejected })
        s.priceNegotiations hall]

/-- Witness scenario for C9: an unregistered handle is rejected with
the store untouched. -/
theorem respond_notfound_cases_witness :
    respondToCounterOffer "ghost" 1 true none negState =
      (.notFound, negState) :=
  (respond_notfound_cases negState "ghost" 1 true none).1 (by decide)

/-- C9 counterexample: with driver 1 registered and no negotiation 99,
the accept branch reports success and modifies nothing, where the claim
demands a `notFound` failure for a missing negotiation in every
branch. -/
theorem respond_accept_missing_negotiation_counterexample :
    (negState.priceNegotiations.find? (fun n => n.id == 99) = none) ∧
    respondToCounterOffer "d1" 99 true none negState = (.ok, negState) ∧
    (respondToCounterOffer "d1" 99 true none negState).1 ≠ .notFound := by
  decide

/-- The profile-aggregate recomputation never touches the ratings
table. -/
theorem updateUserRating_ratings_eq (uid : Nat) (ut : UserType) (s : DBState) :
    (updateUserRating uid ut s).ratings = s.ratings := by
  unfold updateUserRating
  split <;> (dsimp only; split <;> rfl)

/-- C5 (amended): rateRide fails `notFound` on a missing order; for the
passenger role it fails `unauthorized` unless the resolved caller is
the passenger recorded on the order, and for the driver role unless the
resolved caller is the accepted driver recorded on the order; it fails
`alreadyRated` when a rating from the same (order, fromUser) pair
exists; in the passenger role it additionally fails (NOT NULL
constraint on the rating's target, surfaced through the catch branch)
when the order has no accepted driver recorded; in every failure case
the store — ratings and profiles included — is returned unchanged.
Only when all checks pass is exactly one rating row appended. -/
theorem rateRide_checks_and_inserts (s : DBState) (tid : String)
    (orderId : Nat) (score : Nat) (comment : Option String) :
    (s.orders.find? (fun o => o.id == orderId) = none →
       rateRide tid orderId .passenger score comment s = (.notFound, s) ∧
       rateRide tid orderId .driver score comment s = (.notFound, s)) ∧
    ∀ od, s.orders.find? (fun o => o.id == orderId) = some od →
      ((s.passengers.find? (fun p => p.telegramId == tid) = none →
          rateRide tid orderId .passenger score comment s =
            (.unauthorized, s)) ∧
       ∀ p, s.passengers.find? (fun q => q.telegramId == tid) = some p →
          (p.id ≠ od.passengerId →
             rateRide tid orderId .passenger score comment s =
               (.unauthorized, s)) ∧
          (p.id = od.passengerId →
             ((∃ r ∈ s.ratings, r.orderId = orderId ∧ r.fromUserId = p.id) →
                rateRide tid orderId .passenger score comment s =
                  (.alreadyRated, s)) ∧
             ((¬ ∃ r ∈ s.ratings, r.orderId = orderId ∧ r.fromUserId = p.id) →
                (od.acceptedDriverId = none →
                   rateRide tid orderId .passenger score comment s =
                     (.dbError, s)) ∧
                ∀ did, od.acceptedDriverId = some did →
                  (rateRide tid orderId .passenger score comment s).1 = .ok ∧
                  (rateRide tid orderId .passenger score comment
                      s).2.ratings =
                    s.ratings ++
                      [{ id := freshId (s.ratings.map (·.id))
                       , orderId := orderId
                       , fromUserId := p.id
                       , fromUserType := .passenger
                       , toUserId := did
                       , toUserType := .driver
                       , rating := score
                       , comment := comment.bind
                           (fun c => if c == "" then none else some c) }]))) ∧
      ((s.drivers.find? (fun d => d.telegramId == tid) = none →
          rateRide tid orderId .driver score comment s = (.unauthorized, s)) ∧
       ∀ d, s.drivers.find? (fun e => e.telegramId == tid) = some d →
          (some d.id ≠ od.acceptedDriverId →
             rateRide tid orderId .driver score comment s =
               (.unauthorized, s)) ∧
          (od.acceptedDriverId = some d.id →
             ((∃ r ∈ s.ratings, r.orderId = orderId ∧ r.fromUserId = d.id) →
                rateRide tid orderId .driver score comment s =
                  (.alreadyRated, s)) ∧
             ((¬ ∃ r ∈ s.ratings, r.orderId = orderId ∧ r.fromUserId = d.id) →
                (rateRide tid orderId .driver score comment s).1 = .ok ∧
                (rateRide tid orderId .driver score comment s).2.ratings =
                  s.ratings ++
                    [{ id := freshId (s.ratings.map (·.id))
                     , orderId := orderId
                     , fromUserId := d.id
                     , fromUserType := .driver
                     , toUserId := od.passengerId
                     , toUserType := .passenger
                     , rating := score
                     , comment := comment.bind
                         (fun c => if c == "" then none else some c) }]))) := by
  constructor
  · intro h
    constructor <;> simp [rateRide, h]
  · intro od hord
    refine ⟨⟨?_, ?_⟩, ?_, ?_⟩
    · intro h
      simp [rateRide, hord, h]
    · intro p hp
      constructor
      · intro hne
        simp [rateRide, hord, hp, hne]
      · intro hpid
        constructor
        · intro hex
          obtain ⟨r, hr, h1, h2⟩ := hex
          simp [rateRide, hord, hp, hpid]
          intro hall
          exact absurd (h2.trans hpid) (hall r hr h1)
        · intro hnex
          constructor
          · intro hnone
            simp [rateRide, hord, hp, hpid, hnone]
            intro a ha h1 h2
            exact hnex ⟨a, ha, h1, h2.trans hpid.symm⟩
          · intro did hdid
            have hnpos : ¬ 0 < (s.ratings.filter
                (fun r => r.orderId == orderId &&
                  r.fromUserId == od.passengerId)).length := by
              intro hpos
              obtain ⟨a, ha, hq⟩ := (filter_length_pos_iff _ _).mp hpos
              simp only [Bool.and_eq_true, beq_iff_eq] at hq
              exact hnex ⟨a, ha, hq.1, hq.2.trans hpid.symm⟩
            constructor
            · simp [rateRide, hord, hp, hpid, hdid, hnpos]
            · simp [rateRide, hord, hp, hpid, hdid, hnpos,
                updateUserRating_ratings_eq]
    · intro h
      simp [rateRide, hord, h]
    · intro d hd
      constructor
      · intro hne
        simp [rateRide, hord, hd, hne]
      · intro hdid
        constructor
        · intro hex
          obtain ⟨r, hr, h1, h2⟩ := hex
          simp [rateRide, hord, hd, hdid]
          exact ⟨r, hr, h1, h2⟩
        · intro hnex
          have hnpos : ¬ 0 < (s.ratings.filter
              (fun r => r.orderId == orderId &&
                r.fromUserId == d.id)).length := by
            intro hpos
            obtain ⟨a, ha, hq⟩ := (filter_length_pos_iff _ _).mp hpos
            simp only [Bool.and_eq_true, beq_iff_eq] at hq
            exact hnex ⟨a, ha, hq.1, hq.2⟩
          constructor
          · simp [rateRide, hord, hd, hdid, hnpos]
          · simp [rateRide, hord, hd, hdid, hnpos,
              updateUserRating_ratings_eq]

/-- Store whose only order is still pending (no accepted driver), owned
by passenger 1, with no ratings. -/
def noDriverState : DBState :=
  { emptyDB with
    passengers := [mkPassenger 1 "p1"]
    orders := [mkOrder 1 1 500] }

/-- C5 counterexample: the order exists, the caller is exactly the
passenger recorded on the order, and no rating from this (order,
fromUser) pair exists, so the claim demands an inserted rating row; the
source instead hits the NOT NULL constraint on the rating's target
(`acceptedDriverId` is absent), fails in its catch branch, and inserts
nothing. -/
theorem rateRide_missing_driver_counterexample :
    noDriverState.orders.find? (fun o => o.id == 1) = some (mkOrder 1 1 500) ∧
    noDriverState.passengers.find? (fun p => p.telegramId == "p1") =
      some (mkPassenger 1 "p1") ∧
    (mkPassenger 1 "p1").id = (mkOrder 1 1 500).passengerId ∧
    (noDriverState.ratings.filter
      (fun r => r.orderId == 1 && r.fromUserId == 1)).length = 0 ∧
    rateRide "p1" 1 .passenger 5 none noDriverState =
      (.dbError, noDriverState) ∧
    (rateRide "p1" 1 .passenger 5 none noDriverState).2.ratings = [] := by
  decide

/-- Store with a completed order rated by nobody yet: passenger 1 rode
with accepted driver 2 at a final price of 550. -/
def ratedState : DBState :=
  { emptyDB with
    passengers := [mkPassenger 1 "p1"]
    drivers := [mkDriver 2 "d2" true]
    orders := [{ mkOrder 1 1 500 with
                   status := OrderStatus.completed
                 , acceptedDriverId := some 2
                 , finalPrice := some 550 }] }

/-- Witness scenario for C5: the accepted driver rates the passenger of
their completed order; exactly one rating row is appended. -/
theorem rateRide_checks_and_inserts_witness :
    (rateRide "d2" 1 .driver 5 none ratedState).1 = .ok ∧
    (rateRide "d2" 1 .driver 5 none ratedState).2.ratings =
      ratedState.ratings ++
        [{ id := freshId (ratedState.ratings.map (·.id))
         , orderId := 1
         , fromUserId := (mkDriver 2 "d2" true).id
         , fromUserType := .driver
         , toUserId := ({ mkOrder 1 1 500 with
                            status := OrderStatus.completed
                          , acceptedDriverId := some 2
                          , finalPrice := some 550 } : Order).passengerId
         , toUserType := .passenger
         , rating := 5
         , comment := (none : Option String).bind
             (fun c => if c == "" then none else some c) }] :=
  ((((rateRide_checks_and_inserts ratedState "d2" 1 5 none).2
      { mkOrder 1 1 500 with
          status := OrderStatus.completed
        , acceptedDriverId := some 2
        , finalPrice := some 550 } (by decide)).2.2
      (mkDriver 2 "d2" true) (by decide)).2 (by decide)).2 (by decide)

/-- A passenger-to-driver rating row used in the witness scenarios. -/
def mkRating (i oid pid did score : Nat) : Rating :=
  { id := i, orderId := oid, fromUserId := pid, fromUserType := .passenger
  , toUserId := did, toUserType := .driver, rating := score, comment := none }

/-- Store in which driver 1 has received the scores 5, 4 and 3 on three
different orders. -/
def ratingsState : DBState :=
  { emptyDB with
    drivers := [mkDriver 1 "d1" true]
    ratings := [mkRating 1 1 10 1 5, mkRating 2 2 11 1 4, mkRating 3 3 12 1 3] }

/-- C6: whenever a target has at least one rating in a role, the
profile-aggregate recomputation writes back exactly the arithmetic mean
of the full rating history rounded to two decimals together with the
rating count, for drivers and passengers alike; a target with zero
ratings is reported by `getUserRating` as a success carrying the
default 5.00 average, count 0 and no comments; and on the concrete
history [5, 4, 3] the recomputed average is exactly 4.00. -/
theorem rating_aggregate_recompute (s : DBState) (uid : Nat) :
    (receivedRatings uid .driver s ≠ [] →
       ∀ d ∈ (updateUserRating uid .driver s).drivers, d.id = uid →
         d.rating = toFixed2
             ((((receivedRatings uid .driver s).map (·.rating)).sum : ℚ) /
               ((receivedRatings uid .driver s).length : ℚ)) ∧
         d.totalRides = (receivedRatings uid .driver s).length) ∧
    (receivedRatings uid .passenger s ≠ [] →
       ∀ p ∈ (updateUserRating uid .passenger s).passengers, p.id = uid →
         p.rating = toFixed2
             ((((receivedRatings uid .passenger s).map (·.rating)).sum : ℚ) /
               ((receivedRatings uid .passenger s).length : ℚ)) ∧
         p.totalRides = (receivedRatings uid .passenger s).length) ∧
    (∀ ut, receivedRatings uid ut s = [] →
       getUserRating uid ut s =
         { success := true, rating := some 5, totalRatings := some 0
         , recentComments := some [] }) ∧
    (updateUserRating 1 .driver ratingsState).drivers =
      [{ mkDriver 1 "d1" true with rating := 4, totalRides := 3 }] ∧
    (getUserRating 1 .driver ratingsState).rating = some 4 ∧
    (getUserRating 1 .driver ratingsState).totalRatings = some 3 := by
  refine ⟨?_, ?_, ?_, ?_, ?_, ?_⟩
  · intro hne d hd hid
    have hlen : ((receivedRatings uid UserType.driver s).length == 0) = false := by
      simp only [beq_eq_false_iff_ne, ne_eq, List.length_eq_zero]
      exact hne
    simp only [updateUserRating, hlen, Bool.false_eq_true, if_false] at hd
    obtain ⟨x, hx, hfx⟩ := List.mem_map.mp hd
    by_cases hxid : (x.id == uid) = true
    · rw [if_pos hxid] at hfx
      rw [← hfx]
      exact ⟨rfl, rfl⟩
    · rw [if_neg hxid] at hfx
      rw [← hfx] at hid
      exact absurd (by simpa using hid) hxid
  · intro hne p hp hid
    have hlen : ((receivedRatings uid UserType.passenger s).length == 0) = false := by
      simp only [beq_eq_false_iff_ne, ne_eq, List.length_eq_zero]
      exact hne
    simp only [updateUserRating, hlen, Bool.false_eq_true, if_false] at hp
    obtain ⟨x, hx, hfx⟩ := List.mem_map.mp hp
    by_cases hxid : (x.id == uid) = true
    · rw [if_pos hxid] at hfx
      rw [← hfx]
      exact ⟨rfl, rfl⟩
    · rw [if_neg hxid] at hfx
      rw [← hfx] at hid
      exact absurd (by simpa using hid) hxid
  · intro ut h
    simp [getUserRating, h]
  · norm_num [updateUserRating, receivedRatings, ratingsState, emptyDB,
      mkRating, mkDriver, toFixed2, jsRound]
  · norm_num [getUserRating, receivedRatings, ratingsState, emptyDB,
      mkRating, toFixed2, jsRound]
  · norm_num [getUserRating, receivedRatings, ratingsState, emptyDB, mkRating]

/-- Witness scenario for C6: instantiating the driver-role recompute on
the concrete store where driver 1 holds the history [5, 4, 3]. -/
theorem rating_aggregate_recompute_witness :
    ({ mkDriver 1 "d1" true with rating := 4, totalRides := 3 } : Driver).rating
        = toFixed2
            ((((receivedRatings 1 .driver ratingsState).map (·.rating)).sum : ℚ) /
              ((receivedRatings 1 .driver ratingsState).length : ℚ)) ∧
    ({ mkDriver 1 "d1" true with rating := 4, totalRides := 3 } : Driver).totalRides
        = (receivedRatings 1 .driver ratingsState).length :=
  (rating_aggregate_recompute ratingsState 1).1 (by decide)
    { mkDriver 1 "d1" true with rating := 4, totalRides := 3 }
    (by
      have h := (rating_aggregate_recompute ratingsState 1).2.2.2.1
      rw [h]
      exact List.mem_singleton.mpr rfl) rfl

end DirectDrive
